import Mathlib

/-!
Shallow embedding of the churn-monitoring and Discord-alerting flow of the
repository (churn_app/tasks.py `monitor_customer_churn` and churn_app/utils.py
`validate_webhook_url`, `check_rate_limit`, `send_discord_message`,
`send_discord_alert`, `send_monitoring_summary`).

Modelling conventions:
- Python floats are modelled as rationals (ℚ); the claims under study do not
  hinge on floating-point rounding.  Note that in ℚ a division by zero yields 0
  where numpy float division yields ±inf/nan; wherever that matters it is
  called out next to the theorem.
- Timestamps are integers (seconds); `datetime.now()` is an explicit `now`
  parameter and `auto_now_add` stamps records with that `now`.
- Outbound HTTP is an oracle: the liveness probe result (requests.get in
  validate_webhook_url) and the sequence of POST outcomes (requests.post in
  send_discord_message) are inputs, and the model reports how many POSTs were
  performed and which sleeps happened.
- `json.dumps` (default separators, ensure_ascii=True) is implemented exactly,
  since the 2000-character message-size guard measures its output.
-/

/-- Python JSON values as passed to json.dumps: dict keys keep insertion
order (Python 3.7+), which json.dumps preserves. -/
inductive Json where
  | null : Json
  | bool (b : Bool) : Json
  | num (n : Int) : Json
  | str (s : String) : Json
  | arr (xs : List Json) : Json
  | obj (kvs : List (String × Json)) : Json
deriving Repr

/-- Lower-case hexadecimal digit. -/
def hexDigit (n : Nat) : Char :=
  if n < 10 then Char.ofNat (48 + n) else Char.ofNat (87 + n)

/-- Four-digit lower-case hex, as in Python json's \uXXXX escapes. -/
def hex4 (n : Nat) : String :=
  String.mk [hexDigit (n / 4096 % 16), hexDigit (n / 256 % 16),
             hexDigit (n / 16 % 16), hexDigit (n % 16)]

/-- Escape of a single character under json.dumps with ensure_ascii=True:
short escapes for the common control characters, \uXXXX for other
non-printable or non-ASCII characters, surrogate pairs beyond the BMP. -/
def escapeChar (c : Char) : String :=
  if c = '"' then "\\\""
  else if c = '\\' then "\\\\"
  else if c = '\n' then "\\n"
  else if c = '\t' then "\\t"
  else if c = '\r' then "\\r"
  else if c.toNat = 8 then "\\b"
  else if c.toNat = 12 then "\\f"
  else if 32 ≤ c.toNat && c.toNat ≤ 126 then String.singleton c
  else if c.toNat < 65536 then "\\u" ++ hex4 c.toNat
  else
    "\\u" ++ hex4 (55296 + (c.toNat - 65536) / 1024) ++
    "\\u" ++ hex4 (56320 + (c.toNat - 65536) % 1024)

/-- Concatenation of a list of strings, as the empty-separator join. -/
def concatAll : List String → String
  | [] => ""
  | x :: xs => x ++ concatAll xs

/-- json.dumps of a Python string (quotes plus per-character escaping). -/
def dumpJString (s : String) : String :=
  "\"" ++ concatAll (s.data.map escapeChar) ++ "\""

mutual

/-- json.dumps with the default separators: items joined by a comma and a
space, keys and values joined by a colon and a space. -/
def dumpJson : Json → String
  | .null => "null"
  | .bool b => cond b "true" "false"
  | .num n => toString n
  | .str s => dumpJString s
  | .arr xs => "[" ++ dumpArr xs ++ "]"
  | .obj kvs => "\x7b" ++ dumpObj kvs ++ "\x7d"

/-- Array elements rendered and joined by a comma and a space. -/
def dumpArr : List Json → String
  | [] => ""
  | [x] => dumpJson x
  | x :: y :: rest => dumpJson x ++ ", " ++ dumpArr (y :: rest)

/-- Object items rendered as key, colon, space, value, joined by a comma and
a space, in insertion order. -/
def dumpObj : List (String × Json) → String
  | [] => ""
  | [(k, v)] => dumpJString k ++ ": " ++ dumpJson v
  | (k, v) :: y :: rest => dumpJString k ++ ": " ++ dumpJson v ++ ", " ++ dumpObj (y :: rest)

end

/-- Round half to even, the rounding used by Python float formatting (stated
on rationals; concrete inputs in this file avoid exact-half cases, where a
binary double would differ from the rational). -/
def roundHalfEven (q : ℚ) : Int :=
  let f := ⌊q⌋
  if q - f < 1/2 then f
  else if 1/2 < q - f then f + 1
  else if f % 2 = 0 then f else f + 1

/-- Python format(x, '.2f'): two decimal places, minus sign for negative
values. -/
def fmtFixed2 (q : ℚ) : String :=
  let a := (roundHalfEven (q * 100)).natAbs
  (if q < 0 then "-" else "") ++ toString (a / 100) ++ "." ++
    (if a % 100 < 10 then "0" else "") ++ toString (a % 100)

/-- Python f-string percent format with two decimals: the value times 100,
formatted .2f, followed by a percent sign. -/
def fmtPercent2 (q : ℚ) : String := fmtFixed2 (q * 100) ++ "%"

/-- Python f-string plus-signed .2f: an explicit plus sign for non-negative
values. -/
def fmtPlus2 (q : ℚ) : String :=
  if q < 0 then fmtFixed2 q else "+" ++ fmtFixed2 q

/-- Python str() of an optional integer as interpolated in f-strings: None
prints as the word None. -/
def pyStrOptInt : Option Int → String
  | none => "None"
  | some n => toString n

/-- A nullable text column carried into a JSON value: None becomes null. -/
def jsonOfOptStr : Option String → Json
  | none => Json.null
  | some s => Json.str s

/-- The CustomerChurn columns read by the alerting and monitoring code
(models.py CustomerChurn).  balance is read through float(customer.balance)
by the message builder and is modelled as a rational (a null balance would
raise there; that path is outside the claims under study). -/
structure Customer where
  customer_id : Int
  surname : Option String
  geography : Option String
  age : Option Int
  tenure : Option Int
  balance : ℚ
  num_of_products : Option Int
  is_active_member : Bool

/-- One AlertHistory row (models.py AlertHistory): customer is nullable (the
run-summary rows), sent_at is stamped with the creation time. -/
structure AlertRecord where
  customerId : Option Int
  alert_type : String
  message : Json
  sent_at : Int
  was_sent : Bool
  error_message : Option String

/-- One ChurnRiskHistory row (models.py ChurnRiskHistory); rows are appended
in timestamp order, so list order is timestamp order. -/
structure Snapshot where
  customerId : Int
  churn_probability : ℚ
  previous_probability : Option ℚ
  risk_change : Option ℚ
  is_high_risk : Bool
deriving DecidableEq, Repr

/-- settings.DISCORD_ALERTS as observed at a given moment (the dict is
mutated at runtime by the manage_alert_config view, views.py lines 801-807);
the .get defaults 0.7 and 20.0 are folded into the stored values. -/
structure AlertSettings where
  enabled : Bool
  high_risk_threshold : ℚ
  risk_increase_threshold : ℚ

/-- Outcome of the requests.get liveness probe in validate_webhook_url. -/
inductive ProbeResult where
  | status (code : Nat) : ProbeResult
  | exn (msg : String) : ProbeResult

/-- Outcome of one requests.post in send_discord_message: an HTTP status with
an optional parsed Retry-After header, or a raised exception. -/
inductive PostResult where
  | resp (status : Nat) (retryAfter : Option Int) : PostResult
  | exn (msg : String) : PostResult

/-- Environment of one alert attempt: the settings and webhook URL as read
during the attempt, the HTTP oracles, the wall clock and the isoformat
timestamp string. -/
structure AlertEnv where
  settings : AlertSettings
  webhookUrl : Option String
  probe : ProbeResult
  postOracle : Nat → PostResult
  now : Int
  ts : String

/-- Python str.startswith, stated on the character sequences. -/
def strStartsWith (s pre : String) : Bool := List.isPrefixOf pre.data s.data

/-- utils.validate_webhook_url: a missing or empty URL is invalid, a URL not
starting with the Discord webhook prefix is invalid, otherwise a GET probe is
made and a 404 status or a raised exception is invalid. -/
def validate_webhook_url (url : Option String) (probe : ProbeResult) :
    Bool × Option String :=
  match url with
  | none => (false, some "Invalid webhook URL")
  | some u =>
    if u.isEmpty then (false, some "Invalid webhook URL")
    else if !(strStartsWith u "https://discord.com/api/webhooks/") then
      (false, some "Invalid webhook URL format")
    else
      match probe with
      | .status code =>
        if code = 404 then (false, some "Webhook URL not found") else (true, none)
      | .exn m => (false, some ("Error validating webhook: " ++ m))

/-- utils.check_rate_limit: count the AlertHistory rows of the last minute
with was_sent True and report whether the count reached 30. -/
def check_rate_limit (now : Int) (history : List AlertRecord) : Bool :=
  decide (30 ≤ (history.filter fun r => decide (now - 60 ≤ r.sent_at) && r.was_sent).length)

/-- Result of the send loop: the returned pair (success, error message) plus
the observable effects, namely how many POSTs were performed and which sleep
durations happened, in order. -/
structure SendResult where
  success : Bool
  error : Option String
  posts : Nat
  sleeps : List Int
deriving Repr

/-- The attempt loop of utils.send_discord_message: attempt is the loop index
of range(max_retries) and remaining counts the loop indices still available
including the current one (so remaining = max_retries - attempt, and Python's
test attempt < max_retries - 1, deciding whether another iteration exists, is
remaining not equal to 1).  Status 204 returns success; status 429 sleeps the
Retry-After header value (defaulting to retry_delay) and moves to the next
index; any other status or a raised exception sleeps retry_delay and moves on
unless this was the last index, in which case the error is returned; a loop
that runs out of indices returns Max retries exceeded. -/
def sendFrom (oracle : Nat → PostResult) (retry_delay : Int) :
    Nat → Nat → SendResult
  | attempt, 0 => ⟨false, some "Max retries exceeded", attempt, []⟩
  | attempt, remaining + 1 =>
    match oracle attempt with
    | .resp status hdr =>
      if status = 204 then ⟨true, none, attempt + 1, []⟩
      else if status = 429 then
        let rest := sendFrom oracle retry_delay (attempt + 1) remaining
        ⟨rest.success, rest.error, rest.posts, hdr.getD retry_delay :: rest.sleeps⟩
      else if remaining = 0 then
        ⟨false, some ("Discord API returned status code: " ++ toString status),
         attempt + 1, []⟩
      else
        let rest := sendFrom oracle retry_delay (attempt + 1) remaining
        ⟨rest.success, rest.error, rest.posts, retry_delay :: rest.sleeps⟩
    | .exn m =>
      if remaining = 0 then
        ⟨false, some ("Error sending Discord message: " ++ m), attempt + 1, []⟩
      else
        let rest := sendFrom oracle retry_delay (attempt + 1) remaining
        ⟨rest.success, rest.error, rest.posts, retry_delay :: rest.sleeps⟩

/-- utils.send_discord_message with max_retries 3 and retry_delay 1 (the
defaults, used by both callers): the 2000-character json.dumps size guard,
then the attempt loop starting at index 0 with all 3 indices available. -/
def send_discord_message (message : Json) (oracle : Nat → PostResult) : SendResult :=
  if 2000 < (dumpJson message).length then
    ⟨false, some "Message exceeds Discord size limit", 0, []⟩
  else sendFrom oracle 1 0 3

/-- One embed field dict, keys in insertion order: name, value, inline. -/
def jfield (name : String) (value : Json) (inl : Bool) : Json :=
  Json.obj [("name", Json.str name), ("value", value), ("inline", Json.bool inl)]

/-- The newline-joined free-text details block of the alert message. -/
def customerDetails (c : Customer) : String :=
  "Age: " ++ pyStrOptInt c.age ++ "\n" ++
  "Tenure: " ++ pyStrOptInt c.tenure ++ " months\n" ++
  "Balance: $" ++ fmtFixed2 c.balance ++ "\n" ++
  "Products: " ++ pyStrOptInt c.num_of_products ++ "\n" ++
  "Active Member: " ++ (if c.is_active_member then "Yes" else "No")

/-- The alert embed built by utils.send_discord_alert (lines 104-168): the
four base fields; when both risk_change and previous_probability are present,
two more fields and a description (the risk-increase description overwrites
the high-risk one when both conditions hold); then the details field appended
last.  Assigning description to the already-built dict appends that key after
timestamp (Python dict insertion order). -/
def alertMessage (c : Customer) (probability : ℚ)
    (risk_change previous_probability : Option ℚ) (s : AlertSettings)
    (ts : String) : Json :=
  let baseFields : List Json :=
    [jfield "Customer ID" (Json.str (toString c.customer_id)) true,
     jfield "Customer Name" (jsonOfOptStr c.surname) true,
     jfield "Churn Probability" (Json.str (fmtPercent2 probability)) true,
     jfield "Geography" (jsonOfOptStr c.geography) true]
  let detailsField := jfield "Customer Details" (Json.str (customerDetails c)) false
  match risk_change, previous_probability with
  | some rc, some pp =>
    let fields := baseFields ++
      [jfield "Previous Probability" (Json.str (fmtPercent2 pp)) true,
       jfield "Risk Change" (Json.str (fmtPlus2 rc ++ "%")) true, detailsField]
    let desc : List (String × Json) :=
      if s.risk_increase_threshold < rc then
        [("description", Json.str "📈 Significant increase in churn risk!")]
      else if s.high_risk_threshold < probability then
        [("description", Json.str "⚠️ Customer has exceeded the high-risk threshold!")]
      else []
    Json.obj [("embeds", Json.arr [Json.obj
      ([("title", Json.str "🚨 High Risk Customer Alert"),
        ("color", Json.num 15158332),
        ("fields", Json.arr fields),
        ("timestamp", Json.str ts)] ++ desc)])]
  | _, _ =>
    Json.obj [("embeds", Json.arr [Json.obj
      [("title", Json.str "🚨 High Risk Customer Alert"),
       ("color", Json.num 15158332),
       ("fields", Json.arr (baseFields ++ [detailsField])),
       ("timestamp", Json.str ts)]])]

/-- Result of one alert attempt: the boolean returned to the caller, the
AlertHistory rows appended (zero or one), and the number of delivery POSTs
performed. -/
structure AlertOutcome where
  returned : Bool
  records : List AlertRecord
  posts : Nat

/-- The error string recorded by the rate-limit gate. -/
def rateLimitError : String := "Rate limit exceeded (30 messages/minute)"

/-- utils.send_discord_alert: the enabled gate (silent), webhook validation
(returning False with no row on failure), the rate-limit gate (recording a
synthetic failed HIGH_RISK row and not delivering), the message build, the
alert-type choice (HIGH_RISK exactly when probability strictly exceeds the
high-risk threshold, RISK_INCREASE otherwise), delivery, and one AlertHistory
row recording the delivery outcome. -/
def send_discord_alert (c : Customer) (probability : ℚ)
    (risk_change previous_probability : Option ℚ) (env : AlertEnv)
    (history : List AlertRecord) : AlertOutcome :=
  if !env.settings.enabled then ⟨false, [], 0⟩
  else if !(validate_webhook_url env.webhookUrl env.probe).1 then ⟨false, [], 0⟩
  else if check_rate_limit env.now history then
    ⟨false, [⟨some c.customer_id, "HIGH_RISK",
              Json.obj [("error", Json.str rateLimitError)],
              env.now, false, some rateLimitError⟩], 0⟩
  else
    let message := alertMessage c probability risk_change previous_probability
      env.settings env.ts
    let alert_type :=
      if env.settings.high_risk_threshold < probability then "HIGH_RISK"
      else "RISK_INCREASE"
    let r := send_discord_message message env.postOracle
    ⟨r.success, [⟨some c.customer_id, alert_type, message, env.now, r.success, r.error⟩],
     r.posts⟩

/-- The summary embed built by utils.send_monitoring_summary. -/
def summaryMessage (total_checked high_risk_count significant_increases : Nat)
    (ts : String) : Json :=
  Json.obj [("embeds", Json.arr [Json.obj
    [("title", Json.str "📊 Churn Risk Monitoring Summary"),
     ("color", Json.num 3447003),
     ("fields", Json.arr
       [jfield "Total Customers Checked" (Json.str (toString total_checked)) true,
        jfield "High Risk Customers" (Json.str (toString high_risk_count)) true,
        jfield "Significant Risk Increases" (Json.str (toString significant_increases)) true]),
     ("timestamp", Json.str ts)]])]

/-- utils.send_monitoring_summary: same enabled, validation and rate-limit
gates as the per-customer alert (the rate-limit row here has alert type
SUMMARY and a null customer), then delivery and one AlertHistory row. -/
def send_monitoring_summary (total_checked high_risk_count significant_increases : Nat)
    (env : AlertEnv) (history : List AlertRecord) : AlertOutcome :=
  if !env.settings.enabled then ⟨false, [], 0⟩
  else if !(validate_webhook_url env.webhookUrl env.probe).1 then ⟨false, [], 0⟩
  else if check_rate_limit env.now history then
    ⟨false, [⟨none, "SUMMARY", Json.obj [("error", Json.str rateLimitError)],
              env.now, false, some rateLimitError⟩], 0⟩
  else
    let message := summaryMessage total_checked high_risk_count significant_increases env.ts
    let r := send_discord_message message env.postOracle
    ⟨r.success, [⟨none, "SUMMARY", message, env.now, r.success, r.error⟩], r.posts⟩

/-- Outcome of the scoring stages for one customer in tasks.py (lines 62-102):
either one of the three caught-and-skipped failure stages (categorical
encoding, numeric scaling, prediction) or a churn probability.  The model,
scaler and encoders are external fitted artifacts, so their behaviour is an
input of the run. -/
inductive ScoreOutcome where
  | encodeError : ScoreOutcome
  | scaleError : ScoreOutcome
  | predictError : ScoreOutcome
  | ok (probability : ℚ) : ScoreOutcome

/-- Whether a scoring outcome produced a probability. -/
def scoreOk : ScoreOutcome → Bool
  | .ok _ => true
  | _ => false

/-- One loop iteration of tasks.monitor_customer_churn as an input: the
customer row, the behaviour of the fitted artifacts on it, and the mutable
environment (settings dict, webhook URL, HTTP oracles, clock) as observed
during this iteration. -/
structure CustomerStep where
  customer : Customer
  score : ScoreOutcome
  env : AlertEnv

/-- The database rows and run counters threaded through a monitoring run. -/
structure RunState where
  snapshots : List Snapshot
  alerts : List AlertRecord
  total_checked : Nat
  high_risk_count : Nat
  significant_increases : Nat

/-- Observable run events, in program order: a ChurnRiskHistory row creation,
a send_discord_alert invocation, a send_monitoring_summary invocation. -/
inductive RunEvent where
  | snapshotWrite (s : Snapshot) : RunEvent
  | alertCall (customerId : Int) : RunEvent
  | summaryCall (total_checked high_risk_count significant_increases : Nat) : RunEvent

/-- ChurnRiskHistory.objects.filter(customer=customer).order_by(descending
timestamp).first(): the most recently appended snapshot of this customer. -/
def previousFor (snapshots : List Snapshot) (cid : Int) : Option Snapshot :=
  (snapshots.filter fun s => s.customerId == cid).getLast?

/-- The body of the per-customer loop of tasks.monitor_customer_churn (lines
57-148): total_checked is incremented first; a scoring failure is caught and
the customer skipped; otherwise the previous snapshot is fetched, risk_change
is computed (guarded only against a missing previous, not a zero one),
is_high_risk and has_significant_increase compare against the thresholds read
from settings during this iteration, the counters are updated, the new
ChurnRiskHistory row is created, and only then, if warranted, the alert is
sent and its AlertHistory rows appended. -/
def processCustomer (st : RunState) (step : CustomerStep) : RunState × List RunEvent :=
  let st1 := { st with total_checked := st.total_checked + 1 }
  match step.score with
  | .encodeError => (st1, [])
  | .scaleError => (st1, [])
  | .predictError => (st1, [])
  | .ok probability =>
    let previous_prob := (previousFor st1.snapshots step.customer.customer_id).map
      (fun s => s.churn_probability)
    let risk_change :=
      match previous_prob with
      | none => none
      | some p => some ((probability - p) / p * 100)
    let is_high_risk := decide (step.env.settings.high_risk_threshold < probability)
    let has_significant_increase :=
      match risk_change with
      | none => false
      | some rc => decide (step.env.settings.risk_increase_threshold < rc)
    let st2 := { st1 with
      high_risk_count := st1.high_risk_count + (if is_high_risk then 1 else 0),
      significant_increases :=
        st1.significant_increases + (if has_significant_increase then 1 else 0) }
    let snap : Snapshot :=
      ⟨step.customer.customer_id, probability, previous_prob, risk_change, is_high_risk⟩
    let st3 := { st2 with snapshots := st2.snapshots ++ [snap] }
    if is_high_risk || has_significant_increase then
      let out := send_discord_alert step.customer probability risk_change previous_prob
        step.env st3.alerts
      ({ st3 with alerts := st3.alerts ++ out.records },
       [RunEvent.snapshotWrite snap, RunEvent.alertCall step.customer.customer_id])
    else (st3, [RunEvent.snapshotWrite snap])

/-- What a monitoring run returns and leaves behind: the result string, the
final state, the event trace, and whether the summary call was reached. -/
structure RunResult where
  message : String
  state : RunState
  events : List RunEvent
  summaryAttempted : Bool

/-- One fold step of the run loop: process the customer and append the
iteration's events to the trace. -/
def runStep (acc : RunState × List RunEvent) (step : CustomerStep) :
    RunState × List RunEvent :=
  let r := processCustomer acc.1 step
  (r.1, acc.2 ++ r.2)

/-- tasks.monitor_customer_churn: the model-availability gate, the empty-set
gate, the sequential per-customer loop, the end-of-run summary dispatch, and
the result string built from the final counters. -/
def monitor_customer_churn (modelAvailable : Bool) (steps : List CustomerStep)
    (summaryEnv : AlertEnv) (initSnapshots : List Snapshot)
    (initAlerts : List AlertRecord) : RunResult :=
  if !modelAvailable then
    ⟨"Model components not available. Please train the model first.",
     ⟨initSnapshots, initAlerts, 0, 0, 0⟩, [], false⟩
  else if steps.isEmpty then
    ⟨"No customers found in database",
     ⟨initSnapshots, initAlerts, 0, 0, 0⟩, [], false⟩
  else
    let loop := steps.foldl runStep
      ((⟨initSnapshots, initAlerts, 0, 0, 0⟩, []) : RunState × List RunEvent)
    let st := loop.1
    let sout := send_monitoring_summary st.total_checked st.high_risk_count
      st.significant_increases summaryEnv st.alerts
    ⟨"Monitoring completed successfully. Checked: " ++ toString st.total_checked ++
       ", High Risk: " ++ toString st.high_risk_count ++
       ", Significant Increases: " ++ toString st.significant_increases,
     { st with alerts := st.alerts ++ sout.records },
     loop.2 ++ [RunEvent.summaryCall st.total_checked st.high_risk_count
       st.significant_increases],
     true⟩

/-- The ChurnRiskHistory row that one successful iteration writes, as a
function of the prior state, the customer, the iteration environment and the
probability: previous probability from the latest prior snapshot of that
customer, risk_change guarded only against a missing previous (not a zero
one), is_high_risk a strict comparison against the threshold read during the
iteration. -/
def mkSnapshot (st : RunState) (c : Customer) (env : AlertEnv) (p : ℚ) : Snapshot :=
  let previous_prob := (previousFor st.snapshots c.customer_id).map
    (fun s => s.churn_probability)
  ⟨c.customer_id, p, previous_prob,
   match previous_prob with
   | none => none
   | some q => some ((p - q) / q * 100),
   decide (env.settings.high_risk_threshold < p)⟩

/-- Number of customers of a run whose scoring stages all succeed. -/
def okCount (steps : List CustomerStep) : Nat :=
  (steps.filter fun s => scoreOk s.score).length

/-- An iteration environment with alerting disabled and unreachable HTTP, at
a given high-risk threshold: exercises the snapshot-writing logic alone. -/
def quietEnv (thr : ℚ) : AlertEnv :=
  ⟨⟨false, thr, 20⟩, none, ProbeResult.exn "connection refused",
   fun _ => PostResult.exn "connection refused", 0, "2026-01-01T00:00:00"⟩

/-- An environment whose alerting is enabled but whose webhook URL is the
empty string, so that webhook validation fails before any probe. -/
def badUrlEnv : AlertEnv :=
  ⟨⟨true, 7/10, 20⟩, some "", ProbeResult.status 200,
   fun _ => PostResult.resp 204 none, 0, "2026-01-01T00:00:00"⟩

/-- An environment with alerting enabled, a well-formed reachable webhook and
an always-successful delivery endpoint, clock at 20. -/
def okEnv : AlertEnv :=
  ⟨⟨true, 7/10, 20⟩, some "https://discord.com/api/webhooks/abc",
   ProbeResult.status 200, fun _ => PostResult.resp 204 none, 20,
   "2026-01-01T00:00:00"⟩

/-- As okEnv but with every outbound HTTP call failing: same settings, so
only the alert outcome can differ. -/
def downEnv : AlertEnv :=
  ⟨⟨true, 7/10, 20⟩, some "https://discord.com/api/webhooks/abc",
   ProbeResult.exn "timeout", fun _ => PostResult.exn "timeout", 20,
   "2026-01-01T00:00:00"⟩

/-- A concrete customer row. -/
def testCustomer (cid : Int) : Customer :=
  ⟨cid, some "Smith", some "France", some 40, some 5, 1000, some 2, true⟩

/-- A customer whose surname is 2100 characters long, making the serialized
alert message exceed the 2000-character Discord limit. -/
def bigCustomer : Customer :=
  ⟨7, some (String.mk (List.replicate 2100 'a')), some "France", some 40,
   some 5, 1000, some 2, true⟩

/-- A successfully delivered AlertHistory row sent at time 10. -/
def sentRecord : AlertRecord :=
  ⟨some 1, "HIGH_RISK", Json.null, 10, true, none⟩

/-- An AlertHistory log holding 30 successfully delivered rows sent at time
10, all inside the rolling minute of a clock at 20. -/
def fullHistory : List AlertRecord := List.replicate 30 sentRecord

theorem processCustomer_ok_snapshots (st : RunState) (c : Customer)
    (env : AlertEnv) (p : ℚ) :
    (processCustomer st ⟨c, ScoreOutcome.ok p, env⟩).1.snapshots =
      st.snapshots ++ [mkSnapshot st c env p] := by
  simp only [processCustomer, mkSnapshot]
  split <;> rfl

theorem processCustomer_ok_head (st : RunState) (c : Customer)
    (env : AlertEnv) (p : ℚ) :
    (processCustomer st ⟨c, ScoreOutcome.ok p, env⟩).2.head? =
      some (RunEvent.snapshotWrite (mkSnapshot st c env p)) := by
  simp only [processCustomer, mkSnapshot]
  split <;> rfl

theorem processCustomer_total_checked (st : RunState) (step : CustomerStep) :
    (processCustomer st step).1.total_checked = st.total_checked + 1 := by
  obtain ⟨c, sc, env⟩ := step
  cases sc
  · rfl
  · rfl
  · rfl
  · simp only [processCustomer]
    split <;> rfl

theorem processCustomer_snap_count (st : RunState) (step : CustomerStep) :
    (processCustomer st step).1.snapshots.length =
      st.snapshots.length + (if scoreOk step.score then 1 else 0) := by
  obtain ⟨c, sc, env⟩ := step
  cases sc
  · rfl
  · rfl
  · rfl
  · simp only [processCustomer, scoreOk, if_true]
    split <;> simp

theorem runLoop_total_checked (steps : List CustomerStep) :
    ∀ acc : RunState × List RunEvent,
      (steps.foldl runStep acc).1.total_checked =
        acc.1.total_checked + steps.length := by
  induction steps with
  | nil => intro acc; simp
  | cons s rest ih =>
    intro acc
    simp only [List.foldl_cons, List.length_cons, ih, runStep]
    rw [processCustomer_total_checked]
    omega

theorem runLoop_snap_count (steps : List CustomerStep) :
    ∀ acc : RunState × List RunEvent,
      (steps.foldl runStep acc).1.snapshots.length =
        acc.1.snapshots.length + okCount steps := by
  induction steps with
  | nil => intro acc; simp [okCount]
  | cons s rest ih =>
    intro acc
    simp only [List.foldl_cons, ih, okCount, List.filter_cons]
    have hrs : (runStep acc s).1 = (processCustomer acc.1 s).1 := rfl
    rw [hrs, processCustomer_snap_count]
    by_cases hs : scoreOk s.score = true <;> simp [hs] <;> try omega

theorem sendFrom_posts_le (oracle : Nat → PostResult) (d : Int) :
    ∀ (r a : Nat), (sendFrom oracle d a r).posts ≤ a + r := by
  intro r
  induction r with
  | zero => intro a; simp [sendFrom]
  | succ n ih =>
    intro a
    have h1 := ih (a + 1)
    simp only [sendFrom]
    split
    all_goals (repeat' split) <;> simp <;> omega

set_option allowUnsafeReducibility true in
attribute [local semireducible] Rat.sub Rat.mul Rat.inv Rat.add in
/-- Claim C1, evaluated at the failing input: the customer's previous
snapshot has churn probability 0 and the new probability is 1/2; the stored
risk_change of the new snapshot is the computed quotient some ((1/2 - 0) / 0
* 100) — written exactly as tasks.py line 111 computes it — and not null.
The guard at tasks.py line 110 tests only that previous_prob is not None, so
a zero previous probability is divided by (in rational arithmetic the
quotient collapses to 0, in the actual numpy float arithmetic it is +inf;
in both semantics the stored value is non-null, which is what the claim
forbids). -/
theorem C1_zero_previous_gives_non_null_risk_change :
    (processCustomer ⟨[⟨1, 0, none, none, false⟩], [], 0, 0, 0⟩
        ⟨testCustomer 1, ScoreOutcome.ok (1/2), quietEnv (7/10)⟩).1.snapshots.map
      Snapshot.risk_change = [none, some ((1/2 - 0) / 0 * 100)] ∧
    (some ((1/2 - 0) / 0 * 100) : Option ℚ) ≠ none := by
  exact ⟨by decide, by simp⟩

/-- Claim C2, counterexample: every POST returns 429 with Retry-After 2; the
sender waits and retries, but each 429 consumes one of the 3 loop attempts,
so after 3 POSTs — none of which failed for a non-429 reason — it returns
failure with Max retries exceeded.  This contradicts the claim that a
429-triggered retry does not count toward the 3-attempt failure budget and
that Max retries exceeded only follows 3 non-429 failures. -/
theorem C2_counterexample :
    send_discord_message Json.null (fun _ => PostResult.resp 429 (some 2)) =
      ⟨false, some "Max retries exceeded", 3, [2, 2, 2]⟩ := rfl

/-- Claim C2, amended: on a 429 the sender waits the server-provided
Retry-After delay and retries, but the retry consumes one of the 3 attempts:
with every response 429 the sender performs exactly 3 POSTs, sleeps exactly
the three server-provided delays, and returns failure with Max retries
exceeded; and no oracle can make it perform more than 3 POSTs. -/
theorem C2_429_retry_consumes_budget (msg : Json)
    (hlen : (dumpJson msg).length ≤ 2000) :
    (∀ ra : Nat → Int,
      send_discord_message msg (fun i => PostResult.resp 429 (some (ra i))) =
        ⟨false, some "Max retries exceeded", 3, [ra 0, ra 1, ra 2]⟩) ∧
    ∀ oracle : Nat → PostResult, (send_discord_message msg oracle).posts ≤ 3 := by
  constructor
  · intro ra
    unfold send_discord_message
    rw [if_neg (by omega)]
    rfl
  · intro oracle
    unfold send_discord_message
    split
    · simp
    · simpa using sendFrom_posts_le oracle 1 3 0

/-- Witness for the amended claim C2 at the empty message and a constant
Retry-After of 2. -/
theorem C2_witness :
    (dumpJson Json.null).length ≤ 2000 ∧
    ((∀ ra : Nat → Int,
        send_discord_message Json.null (fun i => PostResult.resp 429 (some (ra i))) =
          ⟨false, some "Max retries exceeded", 3, [ra 0, ra 1, ra 2]⟩) ∧
      ∀ oracle : Nat → PostResult,
        (send_discord_message Json.null oracle).posts ≤ 3) :=
  ⟨by decide, C2_429_retry_consumes_budget Json.null (by decide)⟩

set_option allowUnsafeReducibility true in
attribute [local semireducible] Rat.sub Rat.mul Rat.inv Rat.add in
/-- Claim C3, counterexample: two customers are scored at probability 3/5 in
one run; the high-risk threshold read from the settings dict is 7/10 during
the first iteration and 1/2 during the second (the manage_alert_config view
mutates that dict at runtime).  The second snapshot stores is_high_risk true
although 3/5 does not exceed the run-start threshold 7/10: the threshold is
re-read from settings at each customer, not snapshotted at run start. -/
theorem C3_counterexample :
    (monitor_customer_churn true
        [⟨testCustomer 1, ScoreOutcome.ok (3/5), quietEnv (7/10)⟩,
         ⟨testCustomer 2, ScoreOutcome.ok (3/5), quietEnv (1/2)⟩]
        (quietEnv (7/10)) [] []).state.snapshots.map Snapshot.is_high_risk =
      [false, true] ∧ ¬ ((7 : ℚ) / 10 < 3 / 5) := by
  exact ⟨by decide, by decide⟩

/-- Claim C3, amended: every snapshot written for a successfully scored
customer has is_high_risk true exactly when the probability strictly exceeds
the high-risk threshold read from settings during that customer's own
iteration (the value may differ between customers of one run if the
configuration changes mid-run). -/
theorem C3_threshold_read_per_iteration (st : RunState) (c : Customer)
    (env : AlertEnv) (p : ℚ) :
    ∃ snap : Snapshot,
      (processCustomer st ⟨c, ScoreOutcome.ok p, env⟩).1.snapshots =
        st.snapshots ++ [snap] ∧
      (snap.is_high_risk = true ↔ env.settings.high_risk_threshold < p) := by
  refine ⟨mkSnapshot st c env p, processCustomer_ok_snapshots st c env p, ?_⟩
  simp [mkSnapshot]

/-- Claim C4, counterexample: with alerting enabled and an empty webhook URL,
validation fails and both senders abort with no delivery POST — but also with
no AlertHistory row at all: the failure is only printed, not recorded,
contradicting the part of the claim that says the failure is recorded as a
failed AlertRecord. -/
theorem C4_counterexample :
    send_discord_alert (testCustomer 1) (4/5) none none badUrlEnv [] =
      ⟨false, [], 0⟩ ∧
    send_monitoring_summary 5 2 1 badUrlEnv [] = ⟨false, [], 0⟩ :=
  ⟨rfl, rfl⟩

/-- Claim C4, amended: for every attempted notification (per-customer alert
or end-of-run summary), if webhook validation fails — the URL missing,
malformed, or the liveness probe unreachable — the send is aborted with no
delivery POST and a returned failure, but no AlertRecord is created: the
validation failure is only logged. -/
theorem C4_validation_failure_aborts_without_record (c : Customer) (p : ℚ)
    (rc pp : Option ℚ) (env : AlertEnv) (hist : List AlertRecord)
    (total high sig : Nat)
    (hval : (validate_webhook_url env.webhookUrl env.probe).1 = false) :
    send_discord_alert c p rc pp env hist = ⟨false, [], 0⟩ ∧
    send_monitoring_summary total high sig env hist = ⟨false, [], 0⟩ := by
  cases h : env.settings.enabled <;>
    simp [send_discord_alert, send_monitoring_summary, h, hval]

/-- Witness for the amended claim C4 at the empty-URL environment. -/
theorem C4_witness :
    (validate_webhook_url badUrlEnv.webhookUrl badUrlEnv.probe).1 = false ∧
    (send_discord_alert (testCustomer 2) (4/5) none none badUrlEnv fullHistory =
        ⟨false, [], 0⟩ ∧
      send_monitoring_summary 3 1 0 badUrlEnv fullHistory = ⟨false, [], 0⟩) :=
  ⟨by decide, C4_validation_failure_aborts_without_record (testCustomer 2) (4/5)
    none none badUrlEnv fullHistory 3 1 0 (by decide)⟩

/-- Claim C5: whenever the AlertHistory log already holds 30 or more
successfully-sent rows inside the rolling 60-second window, both the
per-customer alert and the summary attempt are rejected: no delivery POST is
performed and exactly one synthetic failed row is recorded, with was_sent
false and the rate-limit reason; in particular the 31st attempt after 30
successful sends inside one window is rejected this way. -/
theorem C5_rate_limit_rejects (c : Customer) (p : ℚ) (rc pp : Option ℚ)
    (env : AlertEnv) (hist : List AlertRecord) (total high sig : Nat)
    (hen : env.settings.enabled = true)
    (hval : (validate_webhook_url env.webhookUrl env.probe).1 = true)
    (hcount : 30 ≤ (hist.filter fun r =>
      decide (env.now - 60 ≤ r.sent_at) && r.was_sent).length) :
    send_discord_alert c p rc pp env hist =
      ⟨false, [⟨some c.customer_id, "HIGH_RISK",
        Json.obj [("error", Json.str rateLimitError)], env.now, false,
        some rateLimitError⟩], 0⟩ ∧
    send_monitoring_summary total high sig env hist =
      ⟨false, [⟨none, "SUMMARY",
        Json.obj [("error", Json.str rateLimitError)], env.now, false,
        some rateLimitError⟩], 0⟩ := by
  have hrl : check_rate_limit env.now hist = true := by
    simpa [check_rate_limit] using hcount
  simp [send_discord_alert, send_monitoring_summary, hen, hval, hrl]

/-- Witness for claim C5: a 31st attempt at clock 20, after 30 successful
sends at time 10 (all inside the rolling minute), is rejected for both the
per-customer alert and the summary. -/
theorem C5_witness :
    okEnv.settings.enabled = true ∧
    (validate_webhook_url okEnv.webhookUrl okEnv.probe).1 = true ∧
    30 ≤ (fullHistory.filter fun r =>
      decide (okEnv.now - 60 ≤ r.sent_at) && r.was_sent).length ∧
    (send_discord_alert (testCustomer 3) (9/10) none none okEnv fullHistory =
        ⟨false, [⟨some 3, "HIGH_RISK",
          Json.obj [("error", Json.str rateLimitError)], 20, false,
          some rateLimitError⟩], 0⟩ ∧
      send_monitoring_summary 31 4 2 okEnv fullHistory =
        ⟨false, [⟨none, "SUMMARY",
          Json.obj [("error", Json.str rateLimitError)], 20, false,
          some rateLimitError⟩], 0⟩) :=
  ⟨rfl, by decide, by decide,
    C5_rate_limit_rejects (testCustomer 3) (9/10) none none okEnv fullHistory
      31 4 2 rfl (by decide) (by decide)⟩

theorem hex4_length (n : Nat) : (hex4 n).length = 4 := rfl

theorem escapeChar_length_pos (c : Char) : 1 ≤ (escapeChar c).length := by
  unfold escapeChar
  split_ifs <;>
    (try simp only [String.length_append, String.length_singleton, hex4_length]) <;>
    decide

theorem concatAll_escape_length (l : List Char) :
    l.length ≤ (concatAll (l.map escapeChar)).length := by
  induction l with
  | nil => simp [concatAll]
  | cons c cs ih =>
    simp only [List.map_cons, concatAll, String.length_append, List.length_cons]
    have := escapeChar_length_pos c
    omega

theorem dumpJString_length (s : String) : s.length ≤ (dumpJString s).length := by
  have h1 := concatAll_escape_length s.data
  have h2 : s.length = s.data.length := rfl
  simp only [dumpJString, String.length_append]
  omega

theorem dumpJson_obj_length (kvs : List (String × Json)) :
    (dumpJson (Json.obj kvs)).length = (dumpObj kvs).length + 2 := by
  simp only [dumpJson, String.length_append]
  have h1 : ("\x7b" : String).length = 1 := rfl
  have h2 : ("\x7d" : String).length = 1 := rfl
  omega

theorem dumpJson_arr_length (xs : List Json) :
    (dumpJson (Json.arr xs)).length = (dumpArr xs).length + 2 := by
  simp only [dumpJson, String.length_append]
  have h1 : ("[" : String).length = 1 := rfl
  have h2 : ("]" : String).length = 1 := rfl
  omega

theorem dumpArr_ge (x : Json) : ∀ xs : List Json, x ∈ xs →
    (dumpJson x).length ≤ (dumpArr xs).length := by
  intro xs
  induction xs with
  | nil => intro h; simp at h
  | cons y ys ih =>
    intro hx
    cases ys with
    | nil =>
      rcases List.mem_singleton.mp hx with rfl
      simp [dumpArr]
    | cons z zs =>
      rcases List.mem_cons.mp hx with rfl | hmem
      · simp only [dumpArr, String.length_append]; omega
      · have := ih hmem
        simp only [dumpArr, String.length_append]
        omega

theorem dumpObj_ge (k : String) (v : Json) : ∀ kvs : List (String × Json),
    (k, v) ∈ kvs → (dumpJson v).length ≤ (dumpObj kvs).length := by
  intro kvs
  induction kvs with
  | nil => intro h; simp at h
  | cons y ys ih =>
    intro hx
    cases ys with
    | nil =>
      rcases List.mem_singleton.mp hx with rfl
      simp only [dumpObj, String.length_append]
      omega
    | cons z zs =>
      rcases List.mem_cons.mp hx with rfl | hmem
      · simp only [dumpObj, String.length_append]
        omega
      · have := ih hmem
        obtain ⟨ky, vy⟩ := y
        simp only [dumpObj, String.length_append]
        omega

theorem dumpJson_obj_ge (k : String) (v : Json) (kvs : List (String × Json))
    (h : (k, v) ∈ kvs) :
    (dumpJson v).length ≤ (dumpJson (Json.obj kvs)).length := by
  have := dumpObj_ge k v kvs h
  rw [dumpJson_obj_length]
  omega

theorem dumpJson_arr_ge (x : Json) (xs : List Json) (h : x ∈ xs) :
    (dumpJson x).length ≤ (dumpJson (Json.arr xs)).length := by
  have := dumpArr_ge x xs h
  rw [dumpJson_arr_length]
  omega

theorem alertMessage_surname_length (c : Customer) (s : String)
    (hs : c.surname = some s) (p : ℚ) (cfg : AlertSettings) (ts : String) :
    s.length ≤ (dumpJson (alertMessage c p none none cfg ts)).length := by
  have hmsg : alertMessage c p none none cfg ts =
      Json.obj [("embeds", Json.arr [Json.obj
        [("title", Json.str "🚨 High Risk Customer Alert"),
         ("color", Json.num 15158332),
         ("fields", Json.arr
           [jfield "Customer ID" (Json.str (toString c.customer_id)) true,
            jfield "Customer Name" (Json.str s) true,
            jfield "Churn Probability" (Json.str (fmtPercent2 p)) true,
            jfield "Geography" (jsonOfOptStr c.geography) true,
            jfield "Customer Details" (Json.str (customerDetails c)) false]),
         ("timestamp", Json.str ts)]])] := by
    simp [alertMessage, hs, jsonOfOptStr]
  rw [hmsg]
  set FL : List Json :=
    [jfield "Customer ID" (Json.str (toString c.customer_id)) true,
     jfield "Customer Name" (Json.str s) true,
     jfield "Churn Probability" (Json.str (fmtPercent2 p)) true,
     jfield "Geography" (jsonOfOptStr c.geography) true,
     jfield "Customer Details" (Json.str (customerDetails c)) false] with hFL
  set EM : Json := Json.obj
    [("title", Json.str "🚨 High Risk Customer Alert"),
     ("color", Json.num 15158332),
     ("fields", Json.arr FL),
     ("timestamp", Json.str ts)] with hEM
  refine le_trans ?_ (dumpJson_obj_ge "embeds" (Json.arr [EM]) _ (by simp))
  refine le_trans ?_ (dumpJson_arr_ge EM [EM] (by simp))
  rw [hEM]
  refine le_trans ?_ (dumpJson_obj_ge "fields" (Json.arr FL) _ (by simp))
  refine le_trans ?_
    (dumpJson_arr_ge (jfield "Customer Name" (Json.str s) true) FL (by simp [hFL]))
  simp only [jfield]
  refine le_trans ?_ (dumpJson_obj_ge "value" (Json.str s) _ (by simp))
  exact dumpJString_length s

/-- Claim C6: for every alert whose constructed message serializes to more
than 2000 characters, the sender refuses before any POST (first conjunct:
every oversized message is rejected with the size-limit error and zero
POSTs), and the caller still records exactly one AlertHistory row with
was_sent false carrying that error (second conjunct). -/
theorem C6_size_guard (c : Customer) (p : ℚ) (rc pp : Option ℚ)
    (env : AlertEnv) (hist : List AlertRecord)
    (hen : env.settings.enabled = true)
    (hval : (validate_webhook_url env.webhookUrl env.probe).1 = true)
    (hrl : check_rate_limit env.now hist = false)
    (hbig : 2000 < (dumpJson (alertMessage c p rc pp env.settings env.ts)).length) :
    (∀ (msg : Json) (oracle : Nat → PostResult), 2000 < (dumpJson msg).length →
      send_discord_message msg oracle =
        ⟨false, some "Message exceeds Discord size limit", 0, []⟩) ∧
    send_discord_alert c p rc pp env hist =
      ⟨false, [⟨some c.customer_id,
        (if env.settings.high_risk_threshold < p then "HIGH_RISK"
         else "RISK_INCREASE"),
        alertMessage c p rc pp env.settings env.ts, env.now, false,
        some "Message exceeds Discord size limit"⟩], 0⟩ := by
  constructor
  · intro msg oracle hm
    simp [send_discord_message, hm]
  · simp [send_discord_alert, send_discord_message, hen, hval, hrl, hbig]

set_option maxRecDepth 100000 in
/-- Witness for claim C6: a customer whose 2100-character surname makes the
serialized message exceed the limit, in an enabled, validated and
non-rate-limited environment. -/
theorem C6_witness :
    okEnv.settings.enabled = true ∧
    (validate_webhook_url okEnv.webhookUrl okEnv.probe).1 = true ∧
    check_rate_limit okEnv.now [] = false ∧
    2000 < (dumpJson (alertMessage bigCustomer (4/5) none none okEnv.settings
      okEnv.ts)).length ∧
    ((∀ (msg : Json) (oracle : Nat → PostResult), 2000 < (dumpJson msg).length →
        send_discord_message msg oracle =
          ⟨false, some "Message exceeds Discord size limit", 0, []⟩) ∧
      send_discord_alert bigCustomer (4/5) none none okEnv [] =
        ⟨false, [⟨some 7,
          (if okEnv.settings.high_risk_threshold < (4/5 : ℚ) then "HIGH_RISK"
           else "RISK_INCREASE"),
          alertMessage bigCustomer (4/5) none none okEnv.settings okEnv.ts,
          20, false, some "Message exceeds Discord size limit"⟩], 0⟩) := by
  have hbig : 2000 < (dumpJson (alertMessage bigCustomer (4/5) none none
      okEnv.settings okEnv.ts)).length := by
    have h := alertMessage_surname_length bigCustomer
      (String.mk (List.replicate 2100 'a')) rfl (4/5) okEnv.settings okEnv.ts
    have hlen : (String.mk (List.replicate 2100 'a')).length = 2100 := by
      rw [String.length_mk, List.length_replicate]
    omega
  exact ⟨rfl, by decide, by decide, hbig,
    C6_size_guard bigCustomer (4/5) none none okEnv [] rfl (by decide)
      (by decide) hbig⟩

/-- Claim C7: per-customer scoring errors are caught and the customer is
skipped: in every run, every customer is iterated (total_checked equals the
number of customers regardless of failures), every successfully scored
customer still receives a snapshot (the snapshot store grows by exactly the
number of successful scorings), and the run still reaches its end-of-run
summary dispatch — the last event is the summary call carrying the final
counters — before returning. -/
theorem C7_errors_skipped_run_completes (steps : List CustomerStep)
    (senv : AlertEnv) (snaps0 : List Snapshot) (alerts0 : List AlertRecord)
    (h : steps ≠ []) :
    (monitor_customer_churn true steps senv snaps0 alerts0).state.total_checked =
      steps.length ∧
    (monitor_customer_churn true steps senv snaps0 alerts0).state.snapshots.length =
      snaps0.length + okCount steps ∧
    (monitor_customer_churn true steps senv snaps0 alerts0).summaryAttempted = true ∧
    (monitor_customer_churn true steps senv snaps0 alerts0).events.getLast? =
      some (RunEvent.summaryCall steps.length
        (monitor_customer_churn true steps senv snaps0 alerts0).state.high_risk_count
        (monitor_customer_churn true steps senv snaps0 alerts0).state.significant_increases) := by
  have hne : steps.isEmpty = false := by
    cases steps with
    | nil => exact absurd rfl h
    | cons a l => rfl
  simp only [monitor_customer_churn, hne, Bool.not_true, Bool.false_eq_true,
    if_false]
  refine ⟨?_, ?_, ?_, ?_⟩
  · rw [runLoop_total_checked]; simp
  · rw [runLoop_snap_count]
  · trivial
  · rw [List.getLast?_concat, runLoop_total_checked]; simp

/-- Witness for claim C7: a two-customer run whose second customer fails at
encoding; both are counted, one snapshot is written, and the summary event
closes the trace. -/
theorem C7_witness :
    ([⟨testCustomer 1, ScoreOutcome.ok 1, quietEnv 2⟩,
      ⟨testCustomer 2, ScoreOutcome.encodeError, quietEnv 2⟩] :
        List CustomerStep) ≠ [] ∧
    ((monitor_customer_churn true
        [⟨testCustomer 1, ScoreOutcome.ok 1, quietEnv 2⟩,
         ⟨testCustomer 2, ScoreOutcome.encodeError, quietEnv 2⟩]
        (quietEnv 2) [] []).state.total_checked = 2 ∧
      (monitor_customer_churn true
        [⟨testCustomer 1, ScoreOutcome.ok 1, quietEnv 2⟩,
         ⟨testCustomer 2, ScoreOutcome.encodeError, quietEnv 2⟩]
        (quietEnv 2) [] []).state.snapshots.length =
        0 + okCount
          [⟨testCustomer 1, ScoreOutcome.ok 1, quietEnv 2⟩,
           ⟨testCustomer 2, ScoreOutcome.encodeError, quietEnv 2⟩] ∧
      (monitor_customer_churn true
        [⟨testCustomer 1, ScoreOutcome.ok 1, quietEnv 2⟩,
         ⟨testCustomer 2, ScoreOutcome.encodeError, quietEnv 2⟩]
        (quietEnv 2) [] []).summaryAttempted = true ∧
      (monitor_customer_churn true
        [⟨testCustomer 1, ScoreOutcome.ok 1, quietEnv 2⟩,
         ⟨testCustomer 2, ScoreOutcome.encodeError, quietEnv 2⟩]
        (quietEnv 2) [] []).events.getLast? =
        some (RunEvent.summaryCall 2
          (monitor_customer_churn true
            [⟨testCustomer 1, ScoreOutcome.ok 1, quietEnv 2⟩,
             ⟨testCustomer 2, ScoreOutcome.encodeError, quietEnv 2⟩]
            (quietEnv 2) [] []).state.high_risk_count
          (monitor_customer_churn true
            [⟨testCustomer 1, ScoreOutcome.ok 1, quietEnv 2⟩,
             ⟨testCustomer 2, ScoreOutcome.encodeError, quietEnv 2⟩]
            (quietEnv 2) [] []).state.significant_increases)) :=
  ⟨by simp,
    C7_errors_skipped_run_completes
      [⟨testCustomer 1, ScoreOutcome.ok 1, quietEnv 2⟩,
       ⟨testCustomer 2, ScoreOutcome.encodeError, quietEnv 2⟩]
      (quietEnv 2) [] [] (by simp)⟩

/-- Claim C8: total_checked is incremented for every iterated customer before
any scoring stage, so the Checked count equals the number of customers and
appears as such in the returned result string and in the dispatched summary
event, while the snapshots written equal only the successful scorings; when
at least one customer fails, the snapshot count is strictly below
total_checked. -/
theorem C8_checked_includes_skipped (steps : List CustomerStep)
    (senv : AlertEnv) (snaps0 : List Snapshot) (alerts0 : List AlertRecord)
    (h : steps ≠ []) (hfail : ∃ s ∈ steps, scoreOk s.score = false) :
    (monitor_customer_churn true steps senv snaps0 alerts0).state.total_checked =
      steps.length ∧
    (monitor_customer_churn true steps senv snaps0 alerts0).state.snapshots.length =
      snaps0.length + okCount steps ∧
    okCount steps < steps.length ∧
    (monitor_customer_churn true steps senv snaps0 alerts0).message =
      "Monitoring completed successfully. Checked: " ++ toString steps.length ++
      ", High Risk: " ++
      toString (monitor_customer_churn true steps senv snaps0 alerts0).state.high_risk_count ++
      ", Significant Increases: " ++
      toString (monitor_customer_churn true steps senv snaps0 alerts0).state.significant_increases ∧
    RunEvent.summaryCall steps.length
      (monitor_customer_churn true steps senv snaps0 alerts0).state.high_risk_count
      (monitor_customer_churn true steps senv snaps0 alerts0).state.significant_increases ∈
      (monitor_customer_churn true steps senv snaps0 alerts0).events := by
  have hne : steps.isEmpty = false := by
    cases steps with
    | nil => exact absurd rfl h
    | cons a l => rfl
  have hlt : okCount steps < steps.length := by
    refine List.length_filter_lt_length_iff_exists.mpr ?_
    obtain ⟨s, hmem, hs⟩ := hfail
    exact ⟨s, hmem, by simp [hs]⟩
  simp only [monitor_customer_churn, hne, Bool.not_true, Bool.false_eq_true,
    if_false]
  refine ⟨?_, ?_, hlt, ?_, ?_⟩
  · rw [runLoop_total_checked]; simp
  · rw [runLoop_snap_count]
  · rw [runLoop_total_checked]; simp
  · rw [runLoop_total_checked]; simp

/-- Witness for claim C8: the two-customer run with a failing first customer;
both are counted (Checked is 2), one snapshot is written, and 1 < 2. -/
theorem C8_witness :
    ([⟨testCustomer 1, ScoreOutcome.scaleError, quietEnv 2⟩,
      ⟨testCustomer 2, ScoreOutcome.ok 1, quietEnv 2⟩] :
        List CustomerStep) ≠ [] ∧
    (∃ s ∈ ([⟨testCustomer 1, ScoreOutcome.scaleError, quietEnv 2⟩,
      ⟨testCustomer 2, ScoreOutcome.ok 1, quietEnv 2⟩] :
        List CustomerStep), scoreOk s.score = false) ∧
    ((monitor_customer_churn true
        [⟨testCustomer 1, ScoreOutcome.scaleError, quietEnv 2⟩,
         ⟨testCustomer 2, ScoreOutcome.ok 1, quietEnv 2⟩]
        (quietEnv 2) [] []).state.total_checked = 2 ∧
      (monitor_customer_churn true
        [⟨testCustomer 1, ScoreOutcome.scaleError, quietEnv 2⟩,
         ⟨testCustomer 2, ScoreOutcome.ok 1, quietEnv 2⟩]
        (quietEnv 2) [] []).state.snapshots.length =
        0 + okCount
          [⟨testCustomer 1, ScoreOutcome.scaleError, quietEnv 2⟩,
           ⟨testCustomer 2, ScoreOutcome.ok 1, quietEnv 2⟩] ∧
      okCount
        [⟨testCustomer 1, ScoreOutcome.scaleError, quietEnv 2⟩,
         ⟨testCustomer 2, ScoreOutcome.ok 1, quietEnv 2⟩] < 2 ∧
      (monitor_customer_churn true
        [⟨testCustomer 1, ScoreOutcome.scaleError, quietEnv 2⟩,
         ⟨testCustomer 2, ScoreOutcome.ok 1, quietEnv 2⟩]
        (quietEnv 2) [] []).message =
        "Monitoring completed successfully. Checked: " ++ toString 2 ++
        ", High Risk: " ++
        toString (monitor_customer_churn true
          [⟨testCustomer 1, ScoreOutcome.scaleError, quietEnv 2⟩,
           ⟨testCustomer 2, ScoreOutcome.ok 1, quietEnv 2⟩]
          (quietEnv 2) [] []).state.high_risk_count ++
        ", Significant Increases: " ++
        toString (monitor_customer_churn true
          [⟨testCustomer 1, ScoreOutcome.scaleError, quietEnv 2⟩,
           ⟨testCustomer 2, ScoreOutcome.ok 1, quietEnv 2⟩]
          (quietEnv 2) [] []).state.significant_increases ∧
      RunEvent.summaryCall 2
        (monitor_customer_churn true
          [⟨testCustomer 1, ScoreOutcome.scaleError, quietEnv 2⟩,
           ⟨testCustomer 2, ScoreOutcome.ok 1, quietEnv 2⟩]
          (quietEnv 2) [] []).state.high_risk_count
        (monitor_customer_churn true
          [⟨testCustomer 1, ScoreOutcome.scaleError, quietEnv 2⟩,
           ⟨testCustomer 2, ScoreOutcome.ok 1, quietEnv 2⟩]
          (quietEnv 2) [] []).state.significant_increases ∈
        (monitor_customer_churn true
          [⟨testCustomer 1, ScoreOutcome.scaleError, quietEnv 2⟩,
           ⟨testCustomer 2, ScoreOutcome.ok 1, quietEnv 2⟩]
          (quietEnv 2) [] []).events) :=
  ⟨by simp,
    ⟨⟨testCustomer 1, ScoreOutcome.scaleError, quietEnv 2⟩, by simp, rfl⟩,
    C8_checked_includes_skipped
      [⟨testCustomer 1, ScoreOutcome.scaleError, quietEnv 2⟩,
       ⟨testCustomer 2, ScoreOutcome.ok 1, quietEnv 2⟩]
      (quietEnv 2) [] [] (by simp)
      ⟨⟨testCustomer 1, ScoreOutcome.scaleError, quietEnv 2⟩, by simp, rfl⟩⟩

/-- Claim C9: when the rate limiter rejects a per-customer alert, the
synthetic failed row always carries alert type HIGH_RISK, even when the
probability does not exceed the high-risk threshold — the case in which a
delivered alert would have been recorded as RISK_INCREASE (second
conjunct: without the rate limit, the recorded type is RISK_INCREASE). -/
theorem C9_rate_limited_type_always_high_risk (c : Customer) (p rc pp : ℚ)
    (env : AlertEnv) (hist : List AlertRecord)
    (hen : env.settings.enabled = true)
    (hval : (validate_webhook_url env.webhookUrl env.probe).1 = true)
    (hp : p ≤ env.settings.high_risk_threshold) :
    (check_rate_limit env.now hist = true →
      (send_discord_alert c p (some rc) (some pp) env hist).records.map
        (fun r => r.alert_type) = ["HIGH_RISK"]) ∧
    (check_rate_limit env.now hist = false →
      (send_discord_alert c p (some rc) (some pp) env hist).records.map
        (fun r => r.alert_type) = ["RISK_INCREASE"]) := by
  constructor <;> intro hrl <;>
    simp [send_discord_alert, hen, hval, hrl, not_lt.mpr hp]

set_option allowUnsafeReducibility true in
attribute [local semireducible] Rat.sub Rat.mul Rat.inv Rat.add in
/-- Witness for claim C9 at a probability of 1/2 against a threshold of 7/10,
in the enabled, validated environment. -/
theorem C9_witness :
    okEnv.settings.enabled = true ∧
    (validate_webhook_url okEnv.webhookUrl okEnv.probe).1 = true ∧
    ((1 : ℚ)/2 ≤ okEnv.settings.high_risk_threshold) ∧
    ((check_rate_limit okEnv.now fullHistory = true →
        (send_discord_alert (testCustomer 4) (1/2) (some 50) (some (1/3)) okEnv
          fullHistory).records.map (fun r => r.alert_type) = ["HIGH_RISK"]) ∧
      (check_rate_limit okEnv.now fullHistory = false →
        (send_discord_alert (testCustomer 4) (1/2) (some 50) (some (1/3)) okEnv
          fullHistory).records.map (fun r => r.alert_type) = ["RISK_INCREASE"])) :=
  ⟨rfl, by decide, by decide,
    C9_rate_limited_type_always_high_risk (testCustomer 4) (1/2) 50 (1/3)
      okEnv fullHistory rfl (by decide) (by decide)⟩

/-- Claim C10: for every successfully scored customer the new snapshot row is
created before the alert call — the iteration's first event is the row
creation, ahead of any alert attempt — and the row's stored fields do not
depend on the alert environment: any iteration environment with the same
high-risk threshold (different webhook URL, probe outcome, delivery oracle,
clock, even a disabled alert flag — hence any alert success, failure or
absence) yields exactly the same snapshot list. -/
theorem C10_snapshot_before_alert_and_unaffected (st : RunState)
    (c : Customer) (env env2 : AlertEnv) (p : ℚ)
    (hthr : env2.settings.high_risk_threshold = env.settings.high_risk_threshold) :
    (processCustomer st ⟨c, ScoreOutcome.ok p, env⟩).1.snapshots =
      st.snapshots ++ [mkSnapshot st c env p] ∧
    (processCustomer st ⟨c, ScoreOutcome.ok p, env⟩).2.head? =
      some (RunEvent.snapshotWrite (mkSnapshot st c env p)) ∧
    (processCustomer st ⟨c, ScoreOutcome.ok p, env2⟩).1.snapshots =
      (processCustomer st ⟨c, ScoreOutcome.ok p, env⟩).1.snapshots := by
  refine ⟨processCustomer_ok_snapshots st c env p,
    processCustomer_ok_head st c env p, ?_⟩
  rw [processCustomer_ok_snapshots, processCustomer_ok_snapshots]
  simp [mkSnapshot, hthr]

/-- Witness for claim C10: the reachable environment versus the one whose
probe and delivery fail, at the same threshold. -/
theorem C10_witness :
    downEnv.settings.high_risk_threshold = okEnv.settings.high_risk_threshold ∧
    ((processCustomer ⟨[], [], 0, 0, 0⟩
        ⟨testCustomer 5, ScoreOutcome.ok (9/10), okEnv⟩).1.snapshots =
      [] ++ [mkSnapshot ⟨[], [], 0, 0, 0⟩ (testCustomer 5) okEnv (9/10)] ∧
    (processCustomer ⟨[], [], 0, 0, 0⟩
        ⟨testCustomer 5, ScoreOutcome.ok (9/10), okEnv⟩).2.head? =
      some (RunEvent.snapshotWrite
        (mkSnapshot ⟨[], [], 0, 0, 0⟩ (testCustomer 5) okEnv (9/10))) ∧
    (processCustomer ⟨[], [], 0, 0, 0⟩
        ⟨testCustomer 5, ScoreOutcome.ok (9/10), downEnv⟩).1.snapshots =
      (processCustomer ⟨[], [], 0, 0, 0⟩
        ⟨testCustomer 5, ScoreOutcome.ok (9/10), okEnv⟩).1.snapshots) :=
  ⟨rfl, C10_snapshot_before_alert_and_unaffected ⟨[], [], 0, 0, 0⟩
    (testCustomer 5) okEnv downEnv (9/10) rfl⟩
